import Mathlib

/-!
Verification of the `lmq_exporter` collector (`src/main.go`).

The collector caches a parsed upstream snapshot and refreshes it lazily:
`updateStats` holds a mutex, checks the cached `expired` timestamp, and on
expiry performs an HTTP GET, reads the body, `json.Unmarshal`s it into
`lmqStats`, then extends `expired` and overwrites the per-queue gauge and
counter children.  `Collect` calls `updateStats` and, unless it returned an
error, emits every child of every metric vector.

The embedding below is sequential: each `updateStats` / `Collect` call is a
function of the collector state, the current wall-clock readings (the code
calls `time.Now()` twice, once for the freshness check and once when setting
`expired`; we pass both as `now` and `now2`), and the outcome of the HTTP
fetch.  Times are naturals (nanoseconds in Go).  JSON numbers are rationals:
the exactness questions in the claims are about which figure is copied
where, not about float64 rounding.
-/

namespace LmqExporter

/-- A parsed JSON document.  A response body either parses to one of these
or is not valid JSON (see `Body`). -/
inductive Json where
  | null : Json
  | bool (b : Bool) : Json
  | num (q : ℚ) : Json
  | str (s : String) : Json
  | arr (elems : List Json) : Json
  | obj (fields : List (String × Json)) : Json

/-- Go `type queueStats struct {...}`, fields `Push`/`Pull` of the inner
anonymous struct.  Zero values are zero, as in Go. -/
structure countStat where
  count : ℤ := 0
deriving DecidableEq, Repr

/-- Go inner `Retention` struct: `Min`, `Max`, `Mean` (JSON tag
`arithmetic_mean`) and `Median`, all float64; modelled as rationals. -/
structure retentionStat where
  min : ℚ := 0
  max : ℚ := 0
  mean : ℚ := 0
  median : ℚ := 0
deriving DecidableEq, Repr

/-- Go inner anonymous `Stats` struct of `queueStats`. -/
structure innerStats where
  push : countStat := {}
  pull : countStat := {}
  retention : retentionStat := {}
deriving DecidableEq, Repr

/-- Go `type queueStats struct { Size int; Memory int; Stats ... }`. -/
structure queueStats where
  size : ℤ := 0
  memory : ℤ := 0
  stats : innerStats := {}
deriving DecidableEq, Repr

/-- Go `type lmqStats struct { Queues map[string]*queueStats }`.  The map is
an association list in JSON-object order (Go map iteration order is
unspecified; no property proved here depends on the order).  A `none` value
is a nil `*queueStats` pointer, which `json.Unmarshal` stores for a JSON
`null` entry.  Go's nil map and empty map behave identically under `range`,
so both decode to `[]`. -/
structure lmqStats where
  queues : List (String × Option queueStats) := []
deriving DecidableEq, Repr

/-- Replace the value of the first entry with the given key, or append.
Used both for Go map insertion (last duplicate JSON key wins) and for the
label-child maps of the metric vectors (`WithLabelValues(name).Set`). -/
def setAssoc {α : Type} : List (String × α) → String → α → List (String × α)
  | [], name, v => [(name, v)]
  | (k, w) :: rest, name, v =>
    if k = name then (k, v) :: rest else (k, w) :: setAssoc rest name v

/-- Look up a key in an association list (first match). -/
def getAssoc {α : Type} : List (String × α) → String → Option α
  | [], _ => none
  | (k, w) :: rest, name => if k = name then some w else getAssoc rest name

/-- `json.Unmarshal` of a JSON value into a Go `int` field with current
value `cur`: `null` leaves the field alone; a number must be integral
(fractional parts are an `UnmarshalTypeError`; int64 range is not
modelled); anything else is a type error.  `none` is an unmarshal error —
the error text is never inspected by the program, only `err != nil`. -/
def decodeInt (v : Json) (cur : ℤ) : Option ℤ :=
  match v with
  | .null => some cur
  | .num q => if q.den = 1 then some q.num else none
  | _ => none

/-- `json.Unmarshal` of a JSON value into a Go `float64` field. -/
def decodeFloat (v : Json) (cur : ℚ) : Option ℚ :=
  match v with
  | .null => some cur
  | .num q => some q
  | _ => none

/-- ASCII lower-casing of one character, for Go's case-insensitive JSON
field matching (`EqualFold`; ASCII suffices for the field names here). -/
def lowerChar (c : Char) : Char :=
  if 65 ≤ c.toNat ∧ c.toNat ≤ 90 then Char.ofNat (c.toNat + 32) else c

/-- Case-insensitive match of a JSON object key `k` against a (lowercase)
Go field name. -/
def keyIs (k : String) (target : String) : Bool :=
  k.data.map lowerChar == target.data

/-- Decode the fields of a JSON object into a `Push`/`Pull` struct.  Go
matches struct fields case-insensitively (`EqualFold`; ASCII `toLower`
suffices for the names here), ignores unknown keys, and for duplicate keys
decodes each in order so the last wins. -/
def decodeCountFields (fields : List (String × Json)) (cur : countStat) :
    Option countStat :=
  fields.foldlM
    (fun c kv =>
      if keyIs kv.1 "count" then
        (decodeInt kv.2 c.count).map (fun n => { c with count := n })
      else some c)
    cur

/-- `json.Unmarshal` into a `Push`/`Pull` struct value: `null` is a no-op,
an object decodes field-wise, anything else is a type error. -/
def decodeCount (v : Json) (cur : countStat) : Option countStat :=
  match v with
  | .null => some cur
  | .obj fields => decodeCountFields fields cur
  | _ => none

/-- Decode the fields of a JSON object into the `Retention` struct.  The
`Mean` field carries the JSON tag `arithmetic_mean`, so only that key (not
`Mean`) matches it. -/
def decodeRetentionFields (fields : List (String × Json)) (cur : retentionStat) :
    Option retentionStat :=
  fields.foldlM
    (fun r kv =>
      let k := kv.1
      if keyIs k "min" then
        (decodeFloat kv.2 r.min).map (fun x => { r with min := x })
      else if keyIs k "max" then
        (decodeFloat kv.2 r.max).map (fun x => { r with max := x })
      else if keyIs k "arithmetic_mean" then
        (decodeFloat kv.2 r.mean).map (fun x => { r with mean := x })
      else if keyIs k "median" then
        (decodeFloat kv.2 r.median).map (fun x => { r with median := x })
      else some r)
    cur

/-- `json.Unmarshal` into the `Retention` struct value. -/
def decodeRetention (v : Json) (cur : retentionStat) : Option retentionStat :=
  match v with
  | .null => some cur
  | .obj fields => decodeRetentionFields fields cur
  | _ => none

/-- Decode the fields of a JSON object into the anonymous `Stats` struct. -/
def decodeInnerFields (fields : List (String × Json)) (cur : innerStats) :
    Option innerStats :=
  fields.foldlM
    (fun s kv =>
      let k := kv.1
      if keyIs k "push" then
        (decodeCount kv.2 s.push).map (fun c => { s with push := c })
      else if keyIs k "pull" then
        (decodeCount kv.2 s.pull).map (fun c => { s with pull := c })
      else if keyIs k "retention" then
        (decodeRetention kv.2 s.retention).map (fun r => { s with retention := r })
      else some s)
    cur

/-- `json.Unmarshal` into the anonymous `Stats` struct value. -/
def decodeInner (v : Json) (cur : innerStats) : Option innerStats :=
  match v with
  | .null => some cur
  | .obj fields => decodeInnerFields fields cur
  | _ => none

/-- Decode the fields of a JSON object into a `queueStats` struct. -/
def decodeQueueFields (fields : List (String × Json)) (cur : queueStats) :
    Option queueStats :=
  fields.foldlM
    (fun q kv =>
      let k := kv.1
      if keyIs k "size" then
        (decodeInt kv.2 q.size).map (fun n => { q with size := n })
      else if keyIs k "memory" then
        (decodeInt kv.2 q.memory).map (fun n => { q with memory := n })
      else if keyIs k "stats" then
        (decodeInner kv.2 q.stats).map (fun s => { q with stats := s })
      else some q)
    cur

/-- `json.Unmarshal` into a `*queueStats` map value: JSON `null` stores a
nil pointer; an object allocates a zero `queueStats` and decodes into it;
anything else is a type error. -/
def decodeQueuePtr (v : Json) : Option (Option queueStats) :=
  match v with
  | .null => some none
  | .obj fields => (decodeQueueFields fields {}).map some
  | _ => none

/-- `json.Unmarshal` into the `map[string]*queueStats` field: `null` leaves
the map nil (same as empty for `range`); an object inserts each entry in
order, last duplicate key winning; anything else is a type error. -/
def decodeQueuesMap (v : Json) : Option (List (String × Option queueStats)) :=
  match v with
  | .null => some []
  | .obj fields =>
    fields.foldlM
      (fun m kv => (decodeQueuePtr kv.2).map (fun q => setAssoc m kv.1 q))
      []
  | _ => none

/-- `json.Unmarshal(b, &stats)` for `var stats lmqStats` (main.go:162-165),
given the parsed form of the body.  Only a JSON object (or `null`) can
populate a Go struct; `encoding/json` accumulates type errors but the
program discards the partially-decoded value whenever `err != nil`, so an
all-or-nothing `Option` is observationally equivalent. -/
def unmarshalLmqStats (j : Json) : Option lmqStats :=
  match j with
  | .null => some {}
  | .obj fields =>
    fields.foldlM
      (fun st kv =>
        if keyIs kv.1 "queues" then
          (decodeQueuesMap kv.2).map (fun m => { st with queues := m })
        else some st)
      {}
  | _ => none

/-- The eight per-queue series values held by the metric vectors
(`size`, `memory_bytes`, `push`, `pull`, `retention_min/max/mean/median`),
all stored as float64 by prometheus. -/
structure SeriesVals where
  size : ℚ
  memory : ℚ
  push : ℚ
  pull : ℚ
  retentionMin : ℚ
  retentionMax : ℚ
  retentionMean : ℚ
  retentionMedian : ℚ
deriving DecidableEq, Repr

/-- The eight `Set` calls of the update loop body (main.go:169-176) for one
queue: every series value is overwritten from the snapshot record, counters
included (`Set`, not `Add`). -/
def toSeries (q : queueStats) : SeriesVals where
  size := (q.size : ℚ)
  memory := (q.memory : ℚ)
  push := (q.stats.push.count : ℚ)
  pull := (q.stats.pull.count : ℚ)
  retentionMin := q.stats.retention.min
  retentionMax := q.stats.retention.max
  retentionMean := q.stats.retention.mean
  retentionMedian := q.stats.retention.median

/-- Mutable collector state: `interval` and `expired` from `lmqCollector`,
and `series` standing for the label-children of all eight metric vectors at
once (they are always written together, keyed by the same queue label). -/
structure CState where
  interval : Nat
  expired : Nat
  series : List (String × SeriesVals)
deriving DecidableEq, Repr

/-- `newLMQCollector`: fresh vectors with no children, zero `expired`
(Go's zero `time.Time`), so the first scrape always fetches. -/
def newLMQCollector (interval : Nat) : CState :=
  { interval := interval, expired := 0, series := [] }

/-- The update loop `for name, q := range stats.Queues` (main.go:168-177).
A nil `*queueStats` entry makes `q.Size` dereference nil and panic; the
`Bool` records that the loop panicked, leaving the entries processed so
far written. -/
def applyQueues : List (String × Option queueStats) →
    List (String × SeriesVals) → List (String × SeriesVals) × Bool
  | [], s => (s, false)
  | (name, some q) :: rest, s => applyQueues rest (setAssoc s name (toSeries q))
  | (_, none) :: _, s => (s, true)

/-- What the HTTP GET of main.go:153 produced.  `http.Get` returns an error
only for transport-level failures; a response carries its status code and
its body. -/
inductive Body where
  | notJson : Body
  | json (j : Json) : Body

/-- Outcome of one `http.Get` attempt.  `readError` is a failure of
`ioutil.ReadAll` on the body. -/
inductive FetchResult where
  | transportError : FetchResult
  | readError (status : Nat) : FetchResult
  | response (status : Nat) (body : Body) : FetchResult

/-- How one `updateStats` call ended: cache still fresh (early `nil`
return), an error return (transport, read, or unmarshal failure), a normal
successful return, or a nil-pointer panic inside the update loop. -/
inductive Outcome where
  | fresh : Outcome
  | errored : Outcome
  | ok : Outcome
  | panicked : Outcome
deriving DecidableEq, Repr

/-- main.go:153-178, the part of `updateStats` after the freshness check:
GET, read, unmarshal — each failure returns the error with the state
untouched — then `c.expired = time.Now().Add(c.interval)` (before the
loop, so a panicking loop still extended it) and the update loop.  The
response status code is never examined. -/
def refreshResult (st : CState) (now2 : Nat) (fr : FetchResult) :
    CState × Outcome :=
  match fr with
  | .transportError => (st, .errored)
  | .readError _ => (st, .errored)
  | .response _ .notJson => (st, .errored)
  | .response _ (.json j) =>
    match unmarshalLmqStats j with
    | none => (st, .errored)
    | some stats =>
      let res := applyQueues stats.queues st.series
      ({ st with expired := now2 + st.interval, series := res.1 },
        if res.2 then .panicked else .ok)

/-- `updateStats` (main.go:146-179).  The whole body runs under `c.m`; the
`Bool` records whether `http.Get` was invoked at all.  `now` is the
`time.Now()` of the freshness check, `now2` the one used to extend
`expired` (so `now ≤ now2` in any real run). -/
def updateStats (st : CState) (now now2 : Nat) (fr : FetchResult) :
    CState × Bool × Outcome :=
  if now < st.expired then (st, false, .fresh)
  else
    let r := refreshResult st now2 fr
    (r.1, true, r.2)

/-- `Collect` (main.go:131-144): on an `updateStats` error it logs and
returns without sending anything on the channel; a panic escapes before any
child is emitted; otherwise every child of every vector is emitted.  The
emission component is `none` when nothing was sent and `some` the children
otherwise. -/
def Collect (st : CState) (now now2 : Nat) (fr : FetchResult) :
    CState × Bool × Option (List (String × SeriesVals)) :=
  let r := updateStats st now now2 fr
  match r.2.2 with
  | .errored => (r.1, r.2.1, none)
  | .panicked => (r.1, r.2.1, none)
  | _ => (r.1, r.2.1, some r.1.series)

/-! ## Concrete fixtures -/

/-- The single-queue snapshot from the spec, as parsed JSON:
`{"Queues":{"q1":{"Size":5,"Memory":1024,"Stats":{"Push":{"Count":10},
"Pull":{"Count":3},"Retention":{"Min":0.1,"Max":9.9,"arithmetic_mean":2.2,
"Median":1.5}}}}}`. -/
def snap1 : Json :=
  .obj [("Queues", .obj [("q1", .obj [
    ("Size", .num 5), ("Memory", .num 1024),
    ("Stats", .obj [
      ("Push", .obj [("Count", .num 10)]),
      ("Pull", .obj [("Count", .num 3)]),
      ("Retention", .obj [("Min", .num (mkRat 1 10)), ("Max", .num (mkRat 99 10)),
        ("arithmetic_mean", .num (mkRat 11 5)), ("Median", .num (mkRat 3 2))])])])])]

/-- The series values the spec expects for `q1` after `snap1`:
size 5, memory 1024, push 10, pull 3, retention 0.1 / 9.9 / 2.2 / 1.5. -/
def vals1 : SeriesVals :=
  ⟨5, 1024, 10, 3, mkRat 1 10, mkRat 99 10, mkRat 11 5, mkRat 3 2⟩

/-- Arbitrary distinct series values standing for a second queue `q2`. -/
def vals2 : SeriesVals := ⟨7, 2048, 20, 6, 1, 2, 3, 4⟩

/-- A second snapshot containing only queue `q2`:
`{"Queues":{"q2":{"Size":7,"Memory":2048,"Stats":{"Push":{"Count":20},
"Pull":{"Count":6},"Retention":{"Min":1,"Max":2,"arithmetic_mean":3,
"Median":4}}}}}`. -/
def snap2 : Json :=
  .obj [("Queues", .obj [("q2", .obj [
    ("Size", .num 7), ("Memory", .num 2048),
    ("Stats", .obj [
      ("Push", .obj [("Count", .num 20)]),
      ("Pull", .obj [("Count", .num 6)]),
      ("Retention", .obj [("Min", .num 1), ("Max", .num 2),
        ("arithmetic_mean", .num 3), ("Median", .num 4)])])])])]

/-- The parsed form of `snap1`. -/
def stats1 : lmqStats :=
  ⟨[("q1", some ⟨5, 1024, ⟨⟨10⟩, ⟨3⟩,
      ⟨mkRat 1 10, mkRat 99 10, mkRat 11 5, mkRat 3 2⟩⟩⟩)]⟩

/-- The parsed form of `snap2`. -/
def stats2 : lmqStats := ⟨[("q2", some ⟨7, 2048, ⟨⟨20⟩, ⟨6⟩, ⟨1, 2, 3, 4⟩⟩⟩)]⟩

/-- A collector state that has already seen both `q1` and `q2`. -/
def stQ12 : CState := ⟨5, 10, [("q1", vals1), ("q2", vals2)]⟩

/-! ## Association-list and update-loop lemmas -/

theorem getAssoc_setAssoc_ne {α : Type} (s : List (String × α)) (name k : String)
    (v : α) (h : k ≠ name) : getAssoc (setAssoc s name v) k = getAssoc s k := by
  induction s with
  | nil =>
    simp only [setAssoc, getAssoc]
    rw [if_neg (fun he => h he.symm)]
  | cons p rest ih =>
    obtain ⟨pk, pv⟩ := p
    simp only [setAssoc]
    split
    · next hpk =>
      subst hpk
      simp only [getAssoc]
      rw [if_neg (fun he => h he.symm), if_neg (fun he => h he.symm)]
    · next hpk =>
      by_cases hk : pk = k
      · simp [getAssoc, hk]
      · simp [getAssoc, hk, ih]

theorem mem_keys_setAssoc {α : Type} (s : List (String × α)) (name a : String)
    (v : α) :
    a ∈ (setAssoc s name v).map Prod.fst ↔ a ∈ s.map Prod.fst ∨ a = name := by
  induction s with
  | nil => simp [setAssoc]
  | cons p rest ih =>
    obtain ⟨pk, pv⟩ := p
    simp only [setAssoc]
    split
    · next hpk =>
      subst hpk
      simp only [List.map_cons, List.mem_cons]
      tauto
    · next hpk =>
      simp only [List.map_cons, List.mem_cons, ih]
      tauto

theorem applyQueues_getAssoc_not_mem (qs : List (String × Option queueStats))
    (s : List (String × SeriesVals)) (name : String)
    (h : ∀ p ∈ qs, p.1 ≠ name) :
    getAssoc (applyQueues qs s).1 name = getAssoc s name := by
  induction qs generalizing s with
  | nil => rfl
  | cons p rest ih =>
    obtain ⟨pk, pq⟩ := p
    cases pq with
    | none => rfl
    | some q =>
      rw [applyQueues, ih _ (fun d hd => h d (List.mem_cons_of_mem _ hd))]
      exact getAssoc_setAssoc_ne _ _ _ _
        (fun he => h (pk, some q) (List.mem_cons_self _ _) he.symm)

theorem applyQueues_keys (qs : List (String × Option queueStats))
    (s : List (String × SeriesVals)) (h : (applyQueues qs s).2 = false)
    (a : String) :
    a ∈ (applyQueues qs s).1.map Prod.fst ↔
      a ∈ s.map Prod.fst ∨ a ∈ qs.map Prod.fst := by
  induction qs generalizing s with
  | nil => simp [applyQueues]
  | cons p rest ih =>
    obtain ⟨pk, pq⟩ := p
    cases pq with
    | none => simp [applyQueues] at h
    | some q =>
      rw [applyQueues] at h ⊢
      rw [ih _ h]
      simp only [mem_keys_setAssoc, List.map_cons, List.mem_cons]
      tauto

/-! ## Refresh and collect lemmas -/

theorem refreshResult_errored_eq (st : CState) (now2 : Nat) (fr : FetchResult)
    (h : (refreshResult st now2 fr).2 = .errored) :
    (refreshResult st now2 fr).1 = st := by
  cases fr with
  | transportError => rfl
  | readError status => rfl
  | response status body =>
    cases body with
    | notJson => rfl
    | json j =>
      simp only [refreshResult] at h ⊢
      cases hu : unmarshalLmqStats j with
      | none => simp [hu]
      | some stats =>
        rw [hu] at h
        simp only at h
        split at h <;> simp_all

theorem refreshResult_ok_shape (st : CState) (now2 : Nat) (fr : FetchResult)
    (h : (refreshResult st now2 fr).2 = .ok) :
    (refreshResult st now2 fr).1.expired = now2 + st.interval ∧
    (refreshResult st now2 fr).1.interval = st.interval := by
  cases fr with
  | transportError => simp [refreshResult] at h
  | readError status => simp [refreshResult] at h
  | response status body =>
    cases body with
    | notJson => simp [refreshResult] at h
    | json j =>
      simp only [refreshResult] at h ⊢
      cases hu : unmarshalLmqStats j with
      | none => simp [hu] at h
      | some stats => simp [hu]

theorem refreshResult_parsed (st : CState) (now2 status : Nat) (j : Json)
    (stats : lmqStats) (hparse : unmarshalLmqStats j = some stats) :
    refreshResult st now2 (.response status (.json j)) =
      ({ st with expired := now2 + st.interval,
                 series := (applyQueues stats.queues st.series).1 },
        if (applyQueues stats.queues st.series).2 then .panicked else .ok) := by
  simp [refreshResult, hparse]

theorem updateStats_fresh (st : CState) (now now2 : Nat) (fr : FetchResult)
    (h : now < st.expired) : updateStats st now now2 fr = (st, false, .fresh) := by
  simp [updateStats, h]

theorem updateStats_stale (st : CState) (now now2 : Nat) (fr : FetchResult)
    (h : ¬ now < st.expired) :
    updateStats st now now2 fr =
      ((refreshResult st now2 fr).1, true, (refreshResult st now2 fr).2) := by
  simp [updateStats, h]

theorem updateStats_errored_eq (st : CState) (now now2 : Nat) (fr : FetchResult)
    (h : (updateStats st now now2 fr).2.2 = .errored) :
    (updateStats st now now2 fr).1 = st ∧
    (updateStats st now now2 fr).2.1 = true := by
  by_cases hf : now < st.expired
  · rw [updateStats_fresh st now now2 fr hf] at h
    simp at h
  · rw [updateStats_stale st now now2 fr hf] at h ⊢
    exact ⟨refreshResult_errored_eq st now2 fr h, rfl⟩

theorem Collect_fst (st : CState) (now now2 : Nat) (fr : FetchResult) :
    (Collect st now now2 fr).1 = (updateStats st now now2 fr).1 := by
  simp only [Collect]
  split <;> rfl

theorem Collect_errored (st : CState) (now now2 : Nat) (fr : FetchResult)
    (h : (updateStats st now now2 fr).2.2 = .errored) :
    Collect st now now2 fr = (st, true, none) := by
  obtain ⟨h1, h2⟩ := updateStats_errored_eq st now now2 fr h
  simp only [Collect]
  rw [h]
  simp [h1, h2]

theorem Collect_fresh (st : CState) (now now2 : Nat) (fr : FetchResult)
    (h : now < st.expired) :
    Collect st now now2 fr = (st, false, some st.series) := by
  simp only [Collect]
  rw [updateStats_fresh st now now2 fr h]

theorem Collect_ok (st : CState) (now now2 : Nat) (fr : FetchResult)
    (h : (updateStats st now now2 fr).2.2 = .ok) :
    Collect st now now2 fr =
      ((updateStats st now now2 fr).1, (updateStats st now now2 fr).2.1,
        some (updateStats st now now2 fr).1.series) := by
  simp only [Collect]
  rw [h]

/-! ## Call traces -/

/-- One `Collect` call in a sequence of scrapes: its two `time.Now()`
readings and the fetch outcome upstream would give it. -/
structure Call where
  now : Nat
  now2 : Nat
  fr : FetchResult

/-- Run a sequence of `Collect` calls (the state evolution is that of
`updateStats`), counting how many of them invoked `http.Get`. -/
def run : CState → List Call → CState × Nat
  | st, [] => (st, 0)
  | st, c :: rest =>
    let r := updateStats st c.now c.now2 c.fr
    let t := run r.1 rest
    (t.1, (if r.2.1 then 1 else 0) + t.2)

theorem run_fresh (st : CState) (calls : List Call)
    (h : ∀ c ∈ calls, c.now < st.expired) : run st calls = (st, 0) := by
  induction calls with
  | nil => rfl
  | cons c rest ih =>
    have hc : c.now < st.expired := h c (List.mem_cons_self _ _)
    simp only [run]
    rw [updateStats_fresh st c.now c.now2 c.fr hc]
    simp [ih (fun d hd => h d (List.mem_cons_of_mem _ hd))]

theorem updateStats_ok_parsed (st : CState) (now now2 status : Nat) (j : Json)
    (stats : lmqStats) (hparse : unmarshalLmqStats j = some stats)
    (hok : (updateStats st now now2 (.response status (.json j))).2.2 = .ok) :
    ¬ now < st.expired ∧ (applyQueues stats.queues st.series).2 = false ∧
    (updateStats st now now2 (.response status (.json j))).1
      = { st with expired := now2 + st.interval,
                  series := (applyQueues stats.queues st.series).1 } := by
  by_cases hf : now < st.expired
  · rw [updateStats_fresh _ _ _ _ hf] at hok
    simp at hok
  · rw [updateStats_stale _ _ _ _ hf,
      refreshResult_parsed st now2 status j stats hparse] at hok ⊢
    refine ⟨hf, ?_, rfl⟩
    cases hfl : (applyQueues stats.queues st.series).2
    · rfl
    · rw [hfl] at hok
      simp at hok

theorem unmarshalLmqStats_no_queues (fields : List (String × Json))
    (hnoq : ∀ kv ∈ fields, keyIs kv.1 "queues" = false) :
    unmarshalLmqStats (.obj fields) = some {} := by
  induction fields with
  | nil => rfl
  | cons kv rest ih =>
    have h1 : keyIs kv.1 "queues" = false := hnoq kv (List.mem_cons_self _ _)
    have ih2 := ih (fun d hd => hnoq d (List.mem_cons_of_mem _ hd))
    simp only [unmarshalLmqStats, List.foldlM_cons, h1] at ih2 ⊢
    simpa using ih2

/-! ## Claims -/

/-- C1: a `Collect` invocation at a time strictly before the cached
`expired` timestamp performs no upstream HTTP fetch and serves the cached
series as-is; and once a fetch succeeds (setting `expired = now2 +
interval`), every further call whose freshness check falls strictly inside
that window performs zero fetches — so any such window sees exactly the
one fetch. -/
theorem freshness_no_refetch_within_window (st : CState) (now now2 : Nat)
    (fr : FetchResult) (calls : List Call) :
    (now < st.expired →
      updateStats st now now2 fr = (st, false, .fresh) ∧
      Collect st now now2 fr = (st, false, some st.series)) ∧
    (∀ st2 : CState, updateStats st now now2 fr = (st2, true, .ok) →
      (∀ c ∈ calls, c.now < now2 + st.interval) →
      run st2 calls = (st2, 0)) := by
  constructor
  · intro h
    exact ⟨updateStats_fresh st now now2 fr h, Collect_fresh st now now2 fr h⟩
  · intro st2 hup hcalls
    by_cases hf : now < st.expired
    · rw [updateStats_fresh st now now2 fr hf] at hup
      simp at hup
    · rw [updateStats_stale st now now2 fr hf] at hup
      have h1 : (refreshResult st now2 fr).1 = st2 := congrArg Prod.fst hup
      have h2 : (refreshResult st now2 fr).2 = .ok :=
        congrArg (fun p => p.2.2) hup
      obtain ⟨he, _⟩ := refreshResult_ok_shape st now2 fr h2
      refine run_fresh st2 calls (fun c hc => ?_)
      rw [← h1, he]
      exact hcalls c hc

/-- Witness for `freshness_no_refetch_within_window`: with `expired = 10` a
call at time 3 does not fetch; and after the successful fetch of `snap1` at
time 3 with interval 5 (so `expired = 8`), calls at times 4 and 7 perform
zero fetches. -/
theorem freshness_no_refetch_within_window_witness :
    updateStats ⟨5, 10, []⟩ 3 3 .transportError = (⟨5, 10, []⟩, false, .fresh) ∧
    run ⟨5, 8, [("q1", vals1)]⟩
        [⟨4, 4, .transportError⟩, ⟨7, 7, .response 200 (.json snap1)⟩]
      = (⟨5, 8, [("q1", vals1)]⟩, 0) :=
  ⟨((freshness_no_refetch_within_window ⟨5, 10, []⟩ 3 3 .transportError []).1
      (by decide)).1,
    (freshness_no_refetch_within_window (newLMQCollector 5) 3 3
        (.response 200 (.json snap1))
        [⟨4, 4, .transportError⟩, ⟨7, 7, .response 200 (.json snap1)⟩]).2
      ⟨5, 8, [("q1", vals1)]⟩ (by decide) (by decide)⟩

/-- C2: a cycle whose fetch or body read fails, or whose body fails to
unmarshal, leaves the collector state — `expired` and every queue's series
values — exactly as it was before the attempt. -/
theorem error_leaves_state_unchanged (st : CState) (now now2 : Nat)
    (fr : FetchResult) (h : (updateStats st now now2 fr).2.2 = .errored) :
    (updateStats st now now2 fr).1 = st :=
  (updateStats_errored_eq st now now2 fr h).1

/-- Witness for `error_leaves_state_unchanged`: a non-JSON body (`not
json`) at an expired cache is an error and changes nothing. -/
theorem error_leaves_state_unchanged_witness :
    (updateStats ⟨5, 10, [("q1", vals1)]⟩ 20 20 (.response 200 .notJson)).2.2
        = .errored ∧
    (updateStats ⟨5, 10, [("q1", vals1)]⟩ 20 20 (.response 200 .notJson)).1
        = ⟨5, 10, [("q1", vals1)]⟩ :=
  ⟨by decide, error_leaves_state_unchanged _ 20 20 _ (by decide)⟩

/-- C3 counterexample: with cached values `vals1` for `q1` and an expired
cache (`expired = 10`, scrape at 20), a failing refresh makes `Collect`
emit nothing at all — not the cached values the claim promises. -/
theorem outage_scrape_counterexample :
    (Collect ⟨5, 10, [("q1", vals1)]⟩ 20 20 .transportError).2.2 = none ∧
    (Collect ⟨5, 10, [("q1", vals1)]⟩ 20 20 .transportError).2.2
      ≠ some [("q1", vals1)] := by decide

/-- C3 amended: while upstream is failing the collector emits nothing for
the failing scrape, but the stored series still hold the last successful
values V unchanged, and any scrape that finds the cache fresh emits
exactly those stored values. -/
theorem outage_keeps_values_but_emits_nothing (st : CState) (now now2 : Nat)
    (fr : FetchResult) (h : (updateStats st now now2 fr).2.2 = .errored) :
    (Collect st now now2 fr).1.series = st.series ∧
    (Collect st now now2 fr).2.2 = none ∧
    (∀ n n2 : Nat, ∀ f : FetchResult, n < st.expired →
      (Collect st n n2 f).2.2 = some st.series) := by
  have hc := Collect_errored st now now2 fr h
  refine ⟨by rw [hc], by rw [hc], fun n n2 f hn => ?_⟩
  rw [Collect_fresh st n n2 f hn]

/-- Witness for `outage_keeps_values_but_emits_nothing`: failing scrape at
time 40 on `expired = 30` keeps `q1`'s values and emits nothing; a fresh
scrape at time 25 emits them. -/
theorem outage_keeps_values_but_emits_nothing_witness :
    (Collect ⟨5, 30, [("q1", vals1)]⟩ 40 40 .transportError).1.series
        = [("q1", vals1)] ∧
    (Collect ⟨5, 30, [("q1", vals1)]⟩ 40 40 .transportError).2.2 = none ∧
    (Collect ⟨5, 30, [("q1", vals1)]⟩ 25 25 (.readError 502)).2.2
        = some [("q1", vals1)] :=
  let h := outage_keeps_values_but_emits_nothing ⟨5, 30, [("q1", vals1)]⟩
    40 40 .transportError (by decide)
  ⟨h.1, h.2.1, h.2.2 25 25 (.readError 502) (by decide)⟩

/-- C4: when the refresh step returns an error, `Collect` returns normally
having emitted no metric values and touched no state — in the model the
error branch is exactly the logged early return of main.go:132-135, and
`Collect` is a total function, so no failure escapes it. -/
theorem collect_error_emits_nothing_returns_normally (st : CState)
    (now now2 : Nat) (fr : FetchResult)
    (h : (updateStats st now now2 fr).2.2 = .errored) :
    Collect st now now2 fr = (st, true, none) :=
  Collect_errored st now now2 fr h

/-- Witness for `collect_error_emits_nothing_returns_normally`: a body
that is the valid JSON `3` (not an object) is an unmarshal error; the
scrape emits nothing and returns. -/
theorem collect_error_emits_nothing_returns_normally_witness :
    Collect ⟨5, 0, [("q1", vals1)]⟩ 9 9 (.response 200 (.json (.num 3)))
      = (⟨5, 0, [("q1", vals1)]⟩, true, none) :=
  collect_error_emits_nothing_returns_normally _ 9 9 _ (by decide)

/-- C5: fetching the spec's single-queue snapshot from a fresh collector
exposes for `queue="q1"` exactly size 5, memory 1024, push 10, pull 3,
retention_min 0.1, retention_max 9.9, retention_mean 2.2 (from the
`arithmetic_mean` key), retention_median 1.5; and a collector whose stored
`q1` counters were 100 and 200 has them *set* to the reported totals 10
and 3, not incremented. -/
theorem relabeling_exact_values :
    Collect (newLMQCollector 5) 0 0 (.response 200 (.json snap1))
      = ({ interval := 5, expired := 5, series := [("q1", vals1)] }, true,
          some [("q1", vals1)]) ∧
    vals1 = ⟨5, 1024, 10, 3, mkRat 1 10, mkRat 99 10, mkRat 11 5, mkRat 3 2⟩ ∧
    getAssoc (updateStats ⟨5, 0, [("q1", ⟨1, 1, 100, 200, 0, 0, 0, 0⟩)]⟩ 9 9
        (.response 200 (.json snap1))).1.series "q1" = some vals1 := by
  decide

/-- C6: frame property of a successful update — a queue name that appears
in no entry of the newly parsed snapshot keeps its stored series values
untouched, so a queue present in an earlier snapshot but absent from the
new one stays exposed with its old values (not removed, not zeroed); and a
successful `Collect` emits exactly the stored series. -/
theorem absent_queue_values_unchanged (st : CState) (now now2 status : Nat)
    (j : Json) (stats : lmqStats) (q : String)
    (hparse : unmarshalLmqStats j = some stats)
    (habs : ∀ p ∈ stats.queues, p.1 ≠ q) :
    getAssoc (updateStats st now now2 (.response status (.json j))).1.series q
      = getAssoc st.series q ∧
    ((updateStats st now now2 (.response status (.json j))).2.2 = .ok →
      (Collect st now now2 (.response status (.json j))).2.2
        = some (updateStats st now now2 (.response status (.json j))).1.series) := by
  constructor
  · by_cases hf : now < st.expired
    · rw [updateStats_fresh _ _ _ _ hf]
    · rw [updateStats_stale _ _ _ _ hf,
        refreshResult_parsed st now2 status j stats hparse]
      exact applyQueues_getAssoc_not_mem stats.queues st.series q habs
  · intro hok
    rw [Collect_ok _ _ _ _ hok]

/-- Witness for `absent_queue_values_unchanged`: after `snap1` establishes
`q1`, a successful refresh with `snap2` (which only contains `q2`) leaves
`q1`'s values unchanged and still emitted. -/
theorem absent_queue_values_unchanged_witness :
    getAssoc (updateStats ⟨5, 8, [("q1", vals1)]⟩ 20 20
        (.response 200 (.json snap2))).1.series "q1" = some vals1 ∧
    (Collect ⟨5, 8, [("q1", vals1)]⟩ 20 20
        (.response 200 (.json snap2))).2.2
      = some (updateStats ⟨5, 8, [("q1", vals1)]⟩ 20 20
          (.response 200 (.json snap2))).1.series :=
  let h := absent_queue_values_unchanged ⟨5, 8, [("q1", vals1)]⟩ 20 20 200
    snap2 stats2 "q1" (by decide) (by decide)
  ⟨h.1.trans (by decide), h.2 (by decide)⟩

/-- C7 counterexample: starting from a state that has seen queues `q1` and
`q2`, a successful refresh whose snapshot contains only `q1` still emits
both labels, although the last successfully parsed snapshot's queue set is
exactly `{ q1 }`. -/
theorem emitted_labels_counterexample :
    ((Collect stQ12 20 20 (.response 200 (.json snap1))).2.2).map
        (List.map Prod.fst)
      = some ["q1", "q2"] ∧
    (unmarshalLmqStats snap1).map (fun s => s.queues.map Prod.fst)
      = some ["q1"] ∧
    (["q1", "q2"] : List String) ≠ ["q1"] := by decide

/-- C7 amended: the set of queue labels emitted by a successful scrape is
the accumulated domain of the stored series — after a successful refresh
it is the union of the previously stored keys and the new snapshot's keys,
not the new snapshot's keys alone. -/
theorem emitted_labels_accumulated_domain (st : CState) (now now2 status : Nat)
    (j : Json) (stats : lmqStats)
    (hparse : unmarshalLmqStats j = some stats)
    (hok : (updateStats st now now2 (.response status (.json j))).2.2 = .ok) :
    (Collect st now now2 (.response status (.json j))).2.2
      = some (updateStats st now now2 (.response status (.json j))).1.series ∧
    ∀ a : String,
      a ∈ (updateStats st now now2
            (.response status (.json j))).1.series.map Prod.fst ↔
        a ∈ st.series.map Prod.fst ∨ a ∈ stats.queues.map Prod.fst := by
  obtain ⟨hf, hflag, hst⟩ :=
    updateStats_ok_parsed st now now2 status j stats hparse hok
  refine ⟨by rw [Collect_ok _ _ _ _ hok], fun a => ?_⟩
  rw [hst]
  exact applyQueues_keys stats.queues st.series hflag a

/-- Witness for `emitted_labels_accumulated_domain`: refreshing `stQ12`
with `snap1` emits the updated store, and `q2` is among the emitted labels
because it was among the stored ones. -/
theorem emitted_labels_accumulated_domain_witness :
    (Collect stQ12 20 20 (.response 200 (.json snap1))).2.2
      = some (updateStats stQ12 20 20 (.response 200 (.json snap1))).1.series ∧
    ("q2" ∈ (updateStats stQ12 20 20
          (.response 200 (.json snap1))).1.series.map Prod.fst ↔
      "q2" ∈ stQ12.series.map Prod.fst ∨
        "q2" ∈ stats1.queues.map Prod.fst) :=
  let h := emitted_labels_accumulated_domain stQ12 20 20 200 snap1 stats1
    (by decide) (by decide)
  ⟨h.1, h.2 "q2"⟩

/-- C8 counterexample: a 500-status response whose body is the valid JSON
object with no members is processed as a fully successful refresh —
`expired` is extended from 10 to 25 and the scrape emits — rather than
being treated as a transport failure with nothing updated. -/
theorem non_2xx_treated_as_success_counterexample :
    updateStats ⟨5, 10, []⟩ 20 20 (.response 500 (.json (.obj [])))
      = (⟨5, 25, []⟩, true, .ok) ∧
    Collect ⟨5, 10, []⟩ 20 20 (.response 500 (.json (.obj [])))
      = (⟨5, 25, []⟩, true, some []) := by decide

/-- C8 amended: the response status code is never examined — `updateStats`
behaves identically on two responses that differ only in status (2xx or
not), and likewise for body-read failures; success or failure of a cycle
is decided by the body alone, only transport-level `http.Get` errors being
failures of the fetch itself. -/
theorem status_code_ignored (st : CState) (now now2 status status2 : Nat)
    (body : Body) :
    updateStats st now now2 (.response status body)
      = updateStats st now now2 (.response status2 body) ∧
    updateStats st now now2 (.readError status)
      = updateStats st now now2 (.readError status2) := by
  refine ⟨?_, rfl⟩
  cases body <;> rfl

/-- C10 counterexample: `[]` is valid JSON, but `json.Unmarshal` cannot
decode a JSON array into the `lmqStats` struct, so the refresh errors and
the state is unchanged — it is not the case that every valid-JSON body
parses successfully. -/
theorem valid_json_body_counterexample :
    unmarshalLmqStats (.arr []) = none ∧
    updateStats ⟨5, 10, [("q1", vals1)]⟩ 20 20
        (.response 200 (.json (.arr [])))
      = (⟨5, 10, [("q1", vals1)]⟩, true, .errored) := by decide

/-- C10 amended: any JSON *object* body none of whose member names matches
the `Queues` field (case-insensitively) — e.g. the empty object or an
object of unrelated keys — is a fully successful refresh: `expired` is
extended to `now2 + interval`, no series value changes, and all previously
known queues' values are emitted; valid-JSON bodies that are not objects
(or whose `Queues` member has the wrong type) fail like non-JSON ones. -/
theorem shapeless_object_full_success (st : CState) (now now2 status : Nat)
    (fields : List (String × Json))
    (hnoq : ∀ kv ∈ fields, keyIs kv.1 "queues" = false)
    (hexp : ¬ now < st.expired) :
    Collect st now now2 (.response status (.json (.obj fields)))
      = ({ st with expired := now2 + st.interval }, true, some st.series) := by
  have hu : unmarshalLmqStats (.obj fields) = some {} :=
    unmarshalLmqStats_no_queues fields hnoq
  have hok : updateStats st now now2 (.response status (.json (.obj fields)))
      = ({ st with expired := now2 + st.interval }, true, .ok) := by
    rw [updateStats_stale _ _ _ _ hexp, refreshResult_parsed st now2 status _ _ hu]
    rfl
  have h22 : (updateStats st now now2
      (.response status (.json (.obj fields)))).2.2 = .ok := by rw [hok]
  rw [Collect_ok _ _ _ _ h22, hok]

/-- Witness for `shapeless_object_full_success`: the body
`{"foo":1}` at an expired cache extends `expired` from 10 to 25,
changes no series value and emits `q1`'s previous values. -/
theorem shapeless_object_full_success_witness :
    Collect ⟨5, 10, [("q1", vals1)]⟩ 20 20
        (.response 200 (.json (.obj [("foo", .num 1)])))
      = (⟨5, 25, [("q1", vals1)]⟩, true, some [("q1", vals1)]) :=
  shapeless_object_full_success ⟨5, 10, [("q1", vals1)]⟩ 20 20 200
    [("foo", .num 1)] (by decide) (by decide)

end LmqExporter
